import Mathlib

/-!
Verification of the imagepig Rust client library (src/lib.rs).

We shallowly embed the library's pure core:
  * JSON values (`serde_json::Value`) as an inductive `Json`;
  * parameter maps (`serde_json::Map<String, Value>`) as association lists
    with overwrite-on-insert semantics (`Params`);
  * the standard base64 decoder used via `BASE64_STANDARD.decode`
    (strict mode: canonical padding required, trailing bits must be zero);
  * the response-materialization protocol `APIResponse::data` as a function
    of the response body and a scripted sequence of GET outcomes, returning
    the result together with the number of GET attempts issued and the
    number of 1-second sleeps performed;
  * the image-input normalization `Image::prepare_image` (URL validation by
    the external `url` crate is abstracted as a boolean predicate argument);
  * every endpoint builder (`default`, `xl`, `flux`, `faceswap`, `upscale`,
    `cutout`, `replace`, `outpaint`) as the payload map it hands to
    `call_api`; for the image-accepting endpoints, which call
    `prepare_image(..).unwrap()`, the result is an `Option Params` where
    `none` models the panic of `unwrap` on an `Err` value (no request sent).
-/

/-- Dynamic JSON values, mirroring `serde_json::Value`.  `Vec<u8>` converts
to a JSON array of numbers under `serde_json::Value::from`, so decoded
image bytes appear as `arr` of `num`. -/
inductive Json where
  | str (s : String)
  | num (n : Nat)
  | bool (b : Bool)
  | null
  | arr (elems : List Json)
  | obj (fields : List (String × Json))

/-- Field lookup in a JSON object's field list (first match wins, as in a
map with unique keys). -/
def Json.lookupField : List (String × Json) → String → Option Json
  | [], _ => none
  | (k, v) :: rest, key => if k = key then some v else Json.lookupField rest key

/-- `serde_json::Value::get(key)`: `Some` on object fields, `None` on any
non-object value. -/
def Json.get : Json → String → Option Json
  | .obj fields, key => Json.lookupField fields key
  | _, _ => none

/-- `Value::as_str`. -/
def Json.asStr : Json → Option String
  | .str s => some s
  | _ => none

/-- `serde_json::Map<String, Value>`: an unordered string-keyed map.  We
model it as an association list; only key lookup matters to the claims. -/
def Params := List (String × Json)

/-- Map lookup (`Map::get`). -/
def getParam : Params → String → Option Json
  | [], _ => none
  | (k, v) :: rest, key => if k = key then some v else getParam rest key

/-- Map insert (`Map::insert`): overwrites the value at an existing key,
otherwise appends a new entry. -/
def insertParam : Params → String → Json → Params
  | [], key, v => [(key, v)]
  | (k, w) :: rest, key, v =>
      if k = key then (key, v) :: rest else (k, w) :: insertParam rest key v

/-- Key membership (`Map::contains_key`). -/
def containsKey (m : Params) (key : String) : Bool :=
  (getParam m key).isSome

theorem getParam_insertParam (m : Params) (key k : String) (v : Json) :
    getParam (insertParam m key v) k = if k = key then some v else getParam m k := by
  induction m with
  | nil =>
      by_cases h : k = key
      · subst h; simp [insertParam, getParam]
      · simp [insertParam, getParam, h, Ne.symm h]
  | cons p rest ih =>
      obtain ⟨k₀, w⟩ := p
      by_cases h₀ : k₀ = key
      · subst h₀
        by_cases h : k = k₀
        · subst h; simp [insertParam, getParam]
        · simp [insertParam, getParam, h, Ne.symm h]
      · by_cases h : k₀ = k
        · subst h
          simp [insertParam, getParam, h₀]
        · simp [insertParam, getParam, h₀, h, ih]

theorem containsKey_insertParam (m : Params) (key k : String) (v : Json) :
    containsKey (insertParam m key v) k
      = if k = key then true else containsKey m k := by
  by_cases h : k = key <;> simp [containsKey, getParam_insertParam, h]

/-! ## Base64 (standard alphabet, strict padding)

Models `base64::prelude::BASE64_STANDARD.decode`: the standard alphabet
`A-Z a-z 0-9 + /`, canonical `=` padding required, and non-zero trailing
bits rejected. -/

/-- Value of one base64 alphabet character, `none` for anything else
(including the padding character). -/
def b64val (c : Char) : Option Nat :=
  if 'A' ≤ c ∧ c ≤ 'Z' then some (c.toNat - 'A'.toNat)
  else if 'a' ≤ c ∧ c ≤ 'z' then some (c.toNat - 'a'.toNat + 26)
  else if '0' ≤ c ∧ c ≤ '9' then some (c.toNat - '0'.toNat + 52)
  else if c = '+' then some 62
  else if c = '/' then some 63
  else none

/-- Decode the final 4-character base64 chunk, which may carry one or two
padding characters; rejects non-canonical (non-zero) trailing bits. -/
def b64decodeFinal (a b c d : Char) : Option (List Nat) :=
  match b64val a, b64val b with
  | some va, some vb =>
      if c = '=' then
        if d = '=' then
          if vb % 16 = 0 then some [va * 4 + vb / 16] else none
        else none
      else
        match b64val c with
        | some vc =>
            if d = '=' then
              if vc % 4 = 0 then
                some [va * 4 + vb / 16, (vb % 16) * 16 + vc / 4]
              else none
            else
              match b64val d with
              | some vd =>
                  some [va * 4 + vb / 16, (vb % 16) * 16 + vc / 4,
                        (vc % 4) * 64 + vd]
              | none => none
        | none => none
  | _, _ => none

/-- Decode a base64 character sequence chunk by chunk; the input length
must be a multiple of 4 and padding may appear only in the last chunk. -/
def b64decodeGo : List Char → Option (List Nat)
  | [] => some []
  | a :: b :: c :: d :: rest =>
      match rest with
      | [] => b64decodeFinal a b c d
      | _ =>
          match b64val a, b64val b, b64val c, b64val d with
          | some va, some vb, some vc, some vd =>
              match b64decodeGo rest with
              | some tail =>
                  some ((va * 4 + vb / 16) :: ((vb % 16) * 16 + vc / 4) ::
                        ((vc % 4) * 64 + vd) :: tail)
              | none => none
          | _, _, _, _ => none
  | _ => none

/-- `BASE64_STANDARD.decode` on a string input. -/
def base64DecodeString (s : String) : Option (List Nat) :=
  b64decodeGo s.toList

/-- `BASE64_STANDARD.decode` on a byte-sequence input (base64 text given
as raw bytes; any byte outside the ASCII alphabet is rejected, exactly as
the non-alphabet character it denotes would be). -/
def base64DecodeBytes (bs : List Nat) : Option (List Nat) :=
  b64decodeGo (bs.map (fun b => Char.ofNat b))

example : base64DecodeString "aGVsbG8=" = some [104, 101, 108, 108, 111] := rfl
example : base64DecodeString "!" = none := rfl
example : base64DecodeString "" = some [] := rfl

/-! ## Errors and the response materialization protocol -/

/-- `ImagePigError` (the `HttpError` payload, a transport error value, is
dropped). -/
inductive ImagePigError where
  | httpError
  | invalidUrl (s : String)
  | unexpectedResponse
  | missingData
  | invalidInput
deriving DecidableEq, Repr

/-- `DOWNLOAD_ATTEMPTS` from the source. -/
def DOWNLOAD_ATTEMPTS : Nat := 10

/-- Outcome of one `Client::get(url).send()` in the download loop: either a
response with a status code and body bytes, or a transport-level failure
(`Err` from `send()`). -/
inductive GetOutcome where
  | response (code : Nat) (body : List Nat)
  | transportError
deriving DecidableEq, Repr

/-- `StatusCode::is_success`: a 2xx status. -/
def isSuccessCode (code : Nat) : Bool :=
  200 ≤ code && code < 300

/-- A 404 response (the retried case of the loop). -/
def isNotFound : GetOutcome → Bool
  | .response code _ => code == 404
  | .transportError => false

/-- Result of `data()` together with the observable network behavior: the
number of GET attempts issued and the number of 1-second sleeps performed
(`DOWNLOAD_INTERRUPTION = 1`, so each sleep is exactly one second). -/
structure DownloadTrace where
  result : Except ImagePigError (List Nat)
  attempts : Nat
  sleeps : Nat
deriving Repr

/-- The `for _ in 0..DOWNLOAD_ATTEMPTS` download loop of `data()`, reading
GET outcomes from `script` starting at attempt index `start` with
`remaining` iterations left.  Mirrors the Rust loop body exactly:
a 2xx response returns its body bytes; a 404 sleeps one second and
continues; any other status breaks; a transport error (`send()` returned
`Err`) skips the `if let Ok` body, so the loop continues without sleeping.
Falling out of the loop yields `MissingData`. -/
def runAttempts (script : Nat → GetOutcome) : Nat → Nat → DownloadTrace
  | _, 0 => ⟨.error .missingData, 0, 0⟩
  | start, r + 1 =>
      match script start with
      | .response code body =>
          if isSuccessCode code then ⟨.ok body, 1, 0⟩
          else if code = 404 then
            let t := runAttempts script (start + 1) r
            ⟨t.result, t.attempts + 1, t.sleeps + 1⟩
          else ⟨.error .missingData, 1, 0⟩
      | .transportError =>
          let t := runAttempts script (start + 1) r
          ⟨t.result, t.attempts + 1, t.sleeps⟩

/-- `APIResponse::url()`: the `image_url` field, when it is a string. -/
def respUrl (content : Json) : Option String :=
  (content.get "image_url").bind Json.asStr

/-- The `image_data` field of the body, when it is a string (the condition
guarding the inline-decode branch of `data()`). -/
def imageDataStr (content : Json) : Option String :=
  (content.get "image_data").bind Json.asStr

/-- `APIResponse::data()`: inline `image_data` is base64-decoded with no
network I/O; otherwise a string `image_url` starts the download loop;
otherwise fail with `MissingData` immediately. -/
def dataF (script : Nat → GetOutcome) (content : Json) : DownloadTrace :=
  match imageDataStr content with
  | some s =>
      match base64DecodeString s with
      | some bytes => ⟨.ok bytes, 0, 0⟩
      | none => ⟨.error .unexpectedResponse, 0, 0⟩
  | none =>
      match respUrl content with
      | some _ => runAttempts script 0 DOWNLOAD_ATTEMPTS
      | none => ⟨.error .missingData, 0, 0⟩

/-! ## Request builders -/

/-- `Proportion`. -/
inductive Proportion where
  | landscape
  | portrait
  | square
  | wide
deriving DecidableEq, Repr

/-- The wire token of a proportion: `format!("{:?}", self).to_lowercase()`. -/
def Proportion.wire : Proportion → String
  | .landscape => "landscape"
  | .portrait => "portrait"
  | .square => "square"
  | .wide => "wide"

/-- `UpscalingFactor`. -/
inductive UpscalingFactor where
  | two
  | four
  | eight
deriving DecidableEq, Repr

/-- The numeric wire value of an upscaling factor (`as u8`). -/
def UpscalingFactor.wire : UpscalingFactor → Nat
  | .two => 2
  | .four => 4
  | .eight => 8

/-- An image input: the `Image` trait is implemented for `&str` (a URL
string) and for `Vec<u8>` (base64 text as raw bytes). -/
inductive ImageInput where
  | url (s : String)
  | bytes (b : List Nat)
deriving DecidableEq, Repr

/-- The single wire key that `prepare_image` writes for a given input
variant and field name. -/
def imageKey : ImageInput → String → String
  | .url _, paramName => paramName ++ "_url"
  | .bytes _, paramName => paramName ++ "_data"

/-- `Image::prepare_image`.  `urlOk` abstracts `Url::parse(self).is_ok()`
from the external `url` crate.  A string input that validates inserts
`{param_name}_url` with the string; an invalid one fails with
`InvalidUrl` carrying it.  A byte input is base64-decoded; success inserts
`{param_name}_data` with the decoded bytes (a JSON array of numbers under
`Value::from`), failure is `InvalidInput`. -/
def prepareImage (urlOk : String → Bool) :
    ImageInput → String → Params → Except ImagePigError Params
  | .url s, paramName, params =>
      if urlOk s then
        .ok (insertParam params (paramName ++ "_url") (.str s))
      else .error (.invalidUrl s)
  | .bytes b, paramName, params =>
      match base64DecodeBytes b with
      | some raw =>
          .ok (insertParam params (paramName ++ "_data")
                (.arr (raw.map Json.num)))
      | none => .error .invalidInput

namespace ImagePig

/-- `ImagePig::default`: the payload POSTed to the `""` endpoint. -/
def defaultCall (prompt : String) (negativePrompt : Option String)
    (extraParams : Option Params) : Params :=
  let params := extraParams.getD []
  let params := insertParam params "positive_prompt" (.str prompt)
  insertParam params "negative_prompt" (.str (negativePrompt.getD ""))

/-- `ImagePig::xl`: the payload POSTed to the `xl` endpoint. -/
def xl (prompt : String) (negativePrompt : Option String)
    (extraParams : Option Params) : Params :=
  let params := extraParams.getD []
  let params := insertParam params "positive_prompt" (.str prompt)
  insertParam params "negative_prompt" (.str (negativePrompt.getD ""))

/-- `ImagePig::flux`: the payload POSTed to the `flux` endpoint. -/
def flux (prompt : String) (proportion : Option Proportion)
    (extraParams : Option Params) : Params :=
  let params := extraParams.getD []
  let params := insertParam params "positive_prompt" (.str prompt)
  insertParam params "proportion"
    (.str (proportion.getD Proportion.landscape).wire)

/-- `ImagePig::faceswap`: the payload POSTed to the `faceswap` endpoint,
or `none` when a `prepare_image(..).unwrap()` panics. -/
def faceswap (urlOk : String → Bool) (sourceImage targetImage : ImageInput)
    (extraParams : Option Params) : Option Params :=
  let params := extraParams.getD []
  match prepareImage urlOk sourceImage "source_image" params with
  | .error _ => none
  | .ok params =>
      match prepareImage urlOk targetImage "target_image" params with
      | .error _ => none
      | .ok params => some params

/-- `ImagePig::upscale`: the payload POSTed to the `upscale` endpoint, or
`none` when `prepare_image(..).unwrap()` panics. -/
def upscale (urlOk : String → Bool) (image : ImageInput)
    (factor : Option UpscalingFactor) (extraParams : Option Params) :
    Option Params :=
  let params := extraParams.getD []
  match prepareImage urlOk image "image" params with
  | .error _ => none
  | .ok params =>
      some (insertParam params "upscaling_factor"
        (.num (factor.getD UpscalingFactor.two).wire))

/-- `ImagePig::cutout`: the payload POSTed to the `cutout` endpoint, or
`none` when `prepare_image(..).unwrap()` panics. -/
def cutout (urlOk : String → Bool) (image : ImageInput)
    (extraParams : Option Params) : Option Params :=
  let params := extraParams.getD []
  match prepareImage urlOk image "image" params with
  | .error _ => none
  | .ok params => some params

/-- `ImagePig::replace`: the payload POSTed to the `replace` endpoint, or
`none` when `prepare_image(..).unwrap()` panics. -/
def replace (urlOk : String → Bool) (image : ImageInput)
    (selectPrompt positivePrompt : String) (negativePrompt : Option String)
    (extraParams : Option Params) : Option Params :=
  let params := extraParams.getD []
  match prepareImage urlOk image "image" params with
  | .error _ => none
  | .ok params =>
      let params := insertParam params "select_prompt" (.str selectPrompt)
      let params := insertParam params "positive_prompt" (.str positivePrompt)
      some (insertParam params "negative_prompt"
        (.str (negativePrompt.getD "")))

/-- `ImagePig::outpaint`: the payload POSTed to the `outpaint` endpoint,
or `none` when `prepare_image(..).unwrap()` panics. -/
def outpaint (urlOk : String → Bool) (image : ImageInput)
    (positivePrompt : String) (negativePrompt : Option String)
    (top right bottom left : Option Nat) (extraParams : Option Params) :
    Option Params :=
  let params := extraParams.getD []
  match prepareImage urlOk image "image" params with
  | .error _ => none
  | .ok params =>
      let params := insertParam params "positive_prompt" (.str positivePrompt)
      let params := insertParam params "negative_prompt"
        (.str (negativePrompt.getD ""))
      let params := insertParam params "top" (.num (top.getD 0))
      let params := insertParam params "right" (.num (right.getD 0))
      let params := insertParam params "bottom" (.num (bottom.getD 0))
      some (insertParam params "left" (.num (left.getD 0)))

end ImagePig

/-! ## Helper lemmas about the download loop -/

theorem runAttempts_attempts_le (script : Nat → GetOutcome) :
    ∀ r start, (runAttempts script start r).attempts ≤ r := by
  intro r
  induction r with
  | zero => intro start; simp [runAttempts]
  | succ n ih =>
      intro start
      have hnext := ih (start + 1)
      simp only [runAttempts]
      cases hs : script start with
      | response code body =>
          cases hsc : isSuccessCode code with
          | true => simp [hsc]
          | false =>
              by_cases h4 : code = 404
              · subst h4; simp [hsc]; omega
              · simp [hsc, h4]
      | transportError => simp; omega

theorem runAttempts_404_prefix (script : Nat → GetOutcome) :
    ∀ k r start code b, k < r →
      (∀ i, i < k → isNotFound (script (start + i)) = true) →
      script (start + k) = .response code b → isSuccessCode code = true →
      runAttempts script start r = ⟨.ok b, k + 1, k⟩ := by
  intro k
  induction k with
  | zero =>
      intro r start code b hr h404 hk hsc
      obtain ⟨r', rfl⟩ : ∃ r', r = r' + 1 := ⟨r - 1, by omega⟩
      rw [Nat.add_zero] at hk
      simp only [runAttempts]
      rw [hk]
      simp [hsc]
  | succ n ih =>
      intro r start code b hr h404 hk hsc
      obtain ⟨r', rfl⟩ : ∃ r', r = r' + 1 := ⟨r - 1, by omega⟩
      have h0 := h404 0 (by omega)
      rw [Nat.add_zero] at h0
      simp only [runAttempts]
      cases hs : script start with
      | response c0 b0 =>
          rw [hs] at h0
          have hc : c0 = 404 := by simpa [isNotFound] using h0
          subst hc
          have hrec : runAttempts script (start + 1) r' = ⟨.ok b, n + 1, n⟩ :=
            ih r' (start + 1) code b (by omega)
              (fun i hi => by
                have hx := h404 (i + 1) (by omega)
                rwa [show start + (i + 1) = start + 1 + i from by omega] at hx)
              (by rwa [show start + (n + 1) = start + 1 + n from by omega] at hk)
              hsc
          simp [isSuccessCode, hrec]
      | transportError =>
          rw [hs] at h0
          simp [isNotFound] at h0

theorem runAttempts_all404 (script : Nat → GetOutcome) :
    ∀ r start, (∀ i, i < r → isNotFound (script (start + i)) = true) →
      runAttempts script start r = ⟨.error .missingData, r, r⟩ := by
  intro r
  induction r with
  | zero => intro start _; simp [runAttempts]
  | succ n ih =>
      intro start h404
      have h0 := h404 0 (by omega)
      rw [Nat.add_zero] at h0
      simp only [runAttempts]
      cases hs : script start with
      | response c0 b0 =>
          rw [hs] at h0
          have hc : c0 = 404 := by simpa [isNotFound] using h0
          subst hc
          have hrec : runAttempts script (start + 1) n = ⟨.error .missingData, n, n⟩ :=
            ih (start + 1) (fun i hi => by
              have hx := h404 (i + 1) (by omega)
              rwa [show start + (i + 1) = start + 1 + i from by omega] at hx)
          simp [isSuccessCode, hrec]
      | transportError =>
          rw [hs] at h0
          simp [isNotFound] at h0

theorem runAttempts_transport_prefix (script : Nat → GetOutcome) :
    ∀ k r start code b, k < r →
      (∀ i, i < k → script (start + i) = .transportError) →
      script (start + k) = .response code b → isSuccessCode code = true →
      runAttempts script start r = ⟨.ok b, k + 1, 0⟩ := by
  intro k
  induction k with
  | zero =>
      intro r start code b hr herr hk hsc
      obtain ⟨r', rfl⟩ : ∃ r', r = r' + 1 := ⟨r - 1, by omega⟩
      rw [Nat.add_zero] at hk
      simp only [runAttempts]
      rw [hk]
      simp [hsc]
  | succ n ih =>
      intro r start code b hr herr hk hsc
      obtain ⟨r', rfl⟩ : ∃ r', r = r' + 1 := ⟨r - 1, by omega⟩
      have h0 := herr 0 (by omega)
      rw [Nat.add_zero] at h0
      simp only [runAttempts]
      rw [h0]
      have hrec : runAttempts script (start + 1) r' = ⟨.ok b, n + 1, 0⟩ :=
        ih r' (start + 1) code b (by omega)
          (fun i hi => by
            have hx := herr (i + 1) (by omega)
            rwa [show start + (i + 1) = start + 1 + i from by omega] at hx)
          (by rwa [show start + (n + 1) = start + 1 + n from by omega] at hk)
          hsc
      simp [hrec]

theorem runAttempts_all_transport (script : Nat → GetOutcome) :
    ∀ r start, (∀ i, i < r → script (start + i) = .transportError) →
      runAttempts script start r = ⟨.error .missingData, r, 0⟩ := by
  intro r
  induction r with
  | zero => intro start _; simp [runAttempts]
  | succ n ih =>
      intro start herr
      have h0 := herr 0 (by omega)
      rw [Nat.add_zero] at h0
      simp only [runAttempts]
      rw [h0]
      have hrec : runAttempts script (start + 1) n = ⟨.error .missingData, n, 0⟩ :=
        ih (start + 1) (fun i hi => by
          have hx := herr (i + 1) (by omega)
          rwa [show start + (i + 1) = start + 1 + i from by omega] at hx)
      simp [hrec]

theorem runAttempts_exhaust (script : Nat → GetOutcome) :
    ∀ r start,
      (∀ i, i < r →
        isNotFound (script (start + i)) = true ∨ script (start + i) = .transportError) →
      (runAttempts script start r).result = .error .missingData ∧
      (runAttempts script start r).attempts = r := by
  intro r
  induction r with
  | zero => intro start _; simp [runAttempts]
  | succ n ih =>
      intro start h
      have hrec := ih (start + 1) (fun i hi => by
        have hx := h (i + 1) (by omega)
        rwa [show start + (i + 1) = start + 1 + i from by omega] at hx)
      have h0 := h 0 (by omega)
      rw [Nat.add_zero] at h0
      simp only [runAttempts]
      cases hs : script start with
      | response c0 b0 =>
          rw [hs] at h0
          have hc : c0 = 404 := by
            rcases h0 with h0 | h0
            · simpa [isNotFound] using h0
            · exact absurd h0 (by simp)
          subst hc
          simp [isSuccessCode]
          exact ⟨hrec.1, by omega⟩
      | transportError =>
          simp
          exact ⟨hrec.1, by omega⟩

theorem runAttempts_break (script : Nat → GetOutcome) (start r code : Nat)
    (b : List Nat) (hs : script start = .response code b)
    (hns : isSuccessCode code = false) (h404 : code ≠ 404) (hr : 0 < r) :
    runAttempts script start r = ⟨.error .missingData, 1, 0⟩ := by
  obtain ⟨r', rfl⟩ : ∃ r', r = r' + 1 := ⟨r - 1, by omega⟩
  simp only [runAttempts]
  rw [hs]
  simp [hns, h404]

theorem dataF_url (script : Nat → GetOutcome) (content : Json) (u : String)
    (hnd : imageDataStr content = none) (hurl : respUrl content = some u) :
    dataF script content = runAttempts script 0 DOWNLOAD_ATTEMPTS := by
  unfold dataF
  rw [hnd, hurl]

theorem dataF_no_fields (script : Nat → GetOutcome) (content : Json)
    (hnd : imageDataStr content = none) (hurl : respUrl content = none) :
    dataF script content = ⟨.error .missingData, 0, 0⟩ := by
  unfold dataF
  rw [hnd, hurl]

/-! ## Helper lemmas about prepare_image -/

/-- The value `prepare_image` inserts for an input that normalizes
successfully (`none` when normalization fails). -/
def preparedValue (urlOk : String → Bool) : ImageInput → Option Json
  | .url s => if urlOk s then some (.str s) else none
  | .bytes b => (base64DecodeBytes b).map (fun raw => .arr (raw.map Json.num))

theorem prepareImage_ok_eq (urlOk : String → Bool) (input : ImageInput)
    (paramName : String) (params m : Params)
    (h : prepareImage urlOk input paramName params = .ok m) :
    ∃ v, preparedValue urlOk input = some v ∧
      m = insertParam params (imageKey input paramName) v := by
  cases input with
  | url s =>
      by_cases hu : urlOk s = true
      · refine ⟨.str s, by simp [preparedValue, hu], ?_⟩
        simp only [prepareImage, hu, if_true] at h
        cases h
        rfl
      · simp only [prepareImage, hu] at h
        simp at hu
        simp [hu] at h
  | bytes b =>
      cases hd : base64DecodeBytes b with
      | some raw =>
          refine ⟨.arr (raw.map Json.num), by simp [preparedValue, hd], ?_⟩
          simp only [prepareImage, hd] at h
          cases h
          rfl
      | none =>
          simp only [prepareImage, hd] at h
          exact Except.noConfusion h

/-! ## Concrete inputs used by witnesses and counterexamples -/

/-- The spec's example response body `{"image_url": "http://x/y"}`. -/
def urlBody : Json := .obj [("image_url", .str "http://x/y")]

/-- GET script for the spec's retry example: the first three attempts
return 404, every later one returns 200 with body `hello`. -/
def threeNotFoundScript : Nat → GetOutcome
  | 0 => .response 404 []
  | 1 => .response 404 []
  | 2 => .response 404 []
  | _ => .response 200 [104, 101, 108, 108, 111]

/-- GET script whose first attempt is a transport failure and whose later
attempts return 200 with body `hi`. -/
def transportThenOkScript : Nat → GetOutcome
  | 0 => .transportError
  | _ => .response 200 [104, 105]

/-- GET script that always returns 404. -/
def always404Script : Nat → GetOutcome := fun _ => .response 404 []

/-- GET script that always returns 500. -/
def always500Script : Nat → GetOutcome := fun _ => .response 500 []

/-- GET script that always fails at the transport level. -/
def alwaysTransportErrorScript : Nat → GetOutcome := fun _ => .transportError

/-! ## Claims -/

/-- C1: when the response body has no string `image_data` field but has a
string `image_url` field, `data()` issues at most 10 GET attempts; and
whenever the first `k` attempts (`k < 10`) return 404 and attempt `k`
returns a 2xx response with body `b`, it returns `b` after exactly `k + 1`
GET attempts and `k` one-second sleeps (each 404 sleeps one second before
the retry).  The witness instantiates the spec's example: 3 404s then a
200 with body `hello` gives `hello` after exactly 4 attempts and 3
sleeps. -/
theorem c1_url_download_retries (script : Nat → GetOutcome) (content : Json)
    (u : String) (k code : Nat) (b : List Nat)
    (hnd : imageDataStr content = none) (hurl : respUrl content = some u) :
    (dataF script content).attempts ≤ 10 ∧
    (k < 10 → (∀ i, i < k → isNotFound (script i) = true) →
      script k = .response code b → isSuccessCode code = true →
      dataF script content = ⟨.ok b, k + 1, k⟩) := by
  rw [dataF_url script content u hnd hurl]
  constructor
  · exact runAttempts_attempts_le script DOWNLOAD_ATTEMPTS 0
  · intro hk h404 hsc hcode
    exact runAttempts_404_prefix script k DOWNLOAD_ATTEMPTS 0 code b hk
      (fun i hi => by simpa using h404 i hi) (by simpa using hsc) hcode

/-- Witness for C1: the spec's concrete scenario (3 404s, then 200 with
body `hello`) returns the bytes of `hello` after exactly 4 attempts and 3
sleeps. -/
theorem c1_url_download_retries_witness :
    dataF threeNotFoundScript urlBody
      = ⟨.ok [104, 101, 108, 108, 111], 4, 3⟩ :=
  (c1_url_download_retries threeNotFoundScript urlBody "http://x/y" 3 200
      [104, 101, 108, 108, 111] rfl rfl).2 (by omega)
    (fun i hi => by interval_cases i <;> rfl) rfl rfl

/-- C2 counterexample: with body `{"image_url": "http://x/y"}` and a GET
script whose first attempt is a transport-level failure and whose second
attempt returns 200 with body `hi`, `data()` issues a second attempt after
the transport failure and succeeds — the transport failure neither stops
the loop nor makes the call fail with `MissingData` (the `if let Ok`
without an `else` makes the loop continue, not break). -/
theorem c2_transport_break_counterexample :
    (dataF transportThenOkScript urlBody).attempts = 2 ∧
    (dataF transportThenOkScript urlBody).result = .ok [104, 105] ∧
    (dataF transportThenOkScript urlBody).result
      ≠ .error ImagePigError.missingData := by
  refine ⟨rfl, rfl, ?_⟩
  intro h
  rw [show (dataF transportThenOkScript urlBody).result = .ok [104, 105] from rfl] at h
  exact Except.noConfusion h

/-- C2 amended: a transport-level failure on a single GET attempt does not
stop the retry loop — the loop continues to the next attempt, without
sleeping.  If the first `k` attempts fail at the transport level and
attempt `k` (`k < 10`) returns a 2xx response with body `b`, `data()`
returns `b` after `k + 1` attempts and no sleeps; only if all 10 attempts
fail at the transport level does the call fail with `MissingData`, after
10 attempts. -/
theorem c2_transport_failure_retried (script : Nat → GetOutcome)
    (content : Json) (u : String) (k code : Nat) (b : List Nat)
    (hnd : imageDataStr content = none) (hurl : respUrl content = some u) :
    ((∀ i, i < 10 → script i = .transportError) →
      dataF script content = ⟨.error .missingData, 10, 0⟩) ∧
    (k < 10 → (∀ i, i < k → script i = .transportError) →
      script k = .response code b → isSuccessCode code = true →
      dataF script content = ⟨.ok b, k + 1, 0⟩) := by
  rw [dataF_url script content u hnd hurl]
  constructor
  · intro herr
    exact runAttempts_all_transport script DOWNLOAD_ATTEMPTS 0
      (fun i hi => by simpa using herr i hi)
  · intro hk herr hsc hcode
    exact runAttempts_transport_prefix script k DOWNLOAD_ATTEMPTS 0 code b hk
      (fun i hi => by simpa using herr i hi) (by simpa using hsc) hcode

/-- Witness for the amended C2: a transport failure on the first attempt
is followed by a second attempt, which succeeds with body `hi`. -/
theorem c2_transport_failure_retried_witness :
    dataF transportThenOkScript urlBody = ⟨.ok [104, 105], 2, 0⟩ :=
  (c2_transport_failure_retried transportThenOkScript urlBody "http://x/y"
      1 200 [104, 105] rfl rfl).2 (by omega)
    (fun i hi => by interval_cases i; rfl) rfl rfl

/-- C4: whenever the response body's `image_data` field is a string `s`,
`data()` base64-decodes `s` and, on success, returns the decoded bytes
with zero GET attempts (and zero sleeps); on decode failure it fails with
`UnexpectedResponse`, still with zero GET attempts.  The witness
instantiates the spec's example `{"image_data": "aGVsbG8="}` (yielding
the bytes of `hello`) and an invalid-base64 body. -/
theorem c4_inline_image_data (script : Nat → GetOutcome) (content : Json)
    (s : String) (bs : List Nat)
    (hd : content.get "image_data" = some (.str s)) :
    (base64DecodeString s = some bs → dataF script content = ⟨.ok bs, 0, 0⟩) ∧
    (base64DecodeString s = none →
      dataF script content = ⟨.error .unexpectedResponse, 0, 0⟩) := by
  have hds : imageDataStr content = some s := by
    unfold imageDataStr
    rw [hd]
    rfl
  have heq : dataF script content
      = match base64DecodeString s with
        | some bytes => ⟨.ok bytes, 0, 0⟩
        | none => ⟨.error .unexpectedResponse, 0, 0⟩ := by
    unfold dataF
    rw [hds]
  rw [heq]
  constructor
  · intro hdec; rw [hdec]
  · intro hdec; rw [hdec]

/-- Witness for C4: the spec's body `{"image_data": "aGVsbG8="}` yields
the bytes of `hello` with zero GET attempts, and the invalid-base64 body
`{"image_data": "!"}` fails with `UnexpectedResponse`, also with zero GET
attempts. -/
theorem c4_inline_image_data_witness :
    dataF always404Script (.obj [("image_data", .str "aGVsbG8=")])
      = ⟨.ok [104, 101, 108, 108, 111], 0, 0⟩ ∧
    dataF always404Script (.obj [("image_data", .str "!")])
      = ⟨.error .unexpectedResponse, 0, 0⟩ :=
  ⟨(c4_inline_image_data always404Script (.obj [("image_data", .str "aGVsbG8=")])
      "aGVsbG8=" [104, 101, 108, 108, 111] rfl).1 rfl,
   (c4_inline_image_data always404Script (.obj [("image_data", .str "!")])
      "!" [] rfl).2 rfl⟩

/-- C5: `data()` fails with `MissingData` in exactly the listed
situations: when the body has neither a string `image_data` nor a string
`image_url`, it fails immediately with zero GET attempts; when the first
GET of the download returns a non-404, non-2xx status (such as 500), it
fails after exactly that one attempt without sleeping; and when all 10
attempts pass without a 2xx response (each one a 404 or a transport
failure), it fails after exactly 10 attempts. -/
theorem c5_missing_data (script : Nat → GetOutcome) (content : Json)
    (u : String) (code : Nat) (b : List Nat)
    (hnd : imageDataStr content = none) :
    (respUrl content = none →
      dataF script content = ⟨.error .missingData, 0, 0⟩) ∧
    (respUrl content = some u → script 0 = .response code b →
      isSuccessCode code = false → code ≠ 404 →
      dataF script content = ⟨.error .missingData, 1, 0⟩) ∧
    (respUrl content = some u →
      (∀ i, i < 10 →
        isNotFound (script i) = true ∨ script i = .transportError) →
      (dataF script content).result = .error .missingData ∧
      (dataF script content).attempts = 10) := by
  refine ⟨?_, ?_, ?_⟩
  · intro hurl
    exact dataF_no_fields script content hnd hurl
  · intro hurl hs hns h404
    rw [dataF_url script content u hnd hurl]
    exact runAttempts_break script 0 DOWNLOAD_ATTEMPTS code b hs hns h404
      (by decide)
  · intro hurl h
    rw [dataF_url script content u hnd hurl]
    exact runAttempts_exhaust script DOWNLOAD_ATTEMPTS 0
      (fun i hi => by simpa using h i hi)

/-- Witness for C5: the empty body `{}` fails immediately with zero
attempts; the body `{"image_url": "http://x/y"}` under an always-500
script fails after exactly one attempt; under an always-404 script both
characterizations of the exhaustion case hold after 10 attempts. -/
theorem c5_missing_data_witness :
    dataF always500Script (Json.obj []) = ⟨.error .missingData, 0, 0⟩ ∧
    dataF always500Script urlBody = ⟨.error .missingData, 1, 0⟩ ∧
    ((dataF always404Script urlBody).result = .error .missingData ∧
      (dataF always404Script urlBody).attempts = 10) :=
  ⟨(c5_missing_data always500Script (Json.obj []) "http://x/y" 500 [] rfl).1
      rfl,
   (c5_missing_data always500Script urlBody "http://x/y" 500 [] rfl).2.1
      rfl rfl rfl (by omega),
   (c5_missing_data always404Script urlBody "http://x/y" 500 [] rfl).2.2
      rfl (fun _ _ => Or.inl rfl)⟩

/-- C9: the one-second sleep after a 404 response is unconditional, so it
also happens on the last of the 10 attempts: when the body has no string
`image_data` but a string `image_url` and every one of the 10 GET
attempts returns 404, `data()` fails with `MissingData` after exactly 10
attempts and exactly 10 one-second sleeps (not 9). -/
theorem c9_sleeps_on_final_attempt (script : Nat → GetOutcome)
    (content : Json) (u : String)
    (hnd : imageDataStr content = none) (hurl : respUrl content = some u)
    (h404 : ∀ i, i < 10 → isNotFound (script i) = true) :
    dataF script content = ⟨.error .missingData, 10, 10⟩ := by
  rw [dataF_url script content u hnd hurl]
  exact runAttempts_all404 script DOWNLOAD_ATTEMPTS 0
    (fun i hi => by simpa using h404 i hi)

/-- Witness for C9: ten consecutive 404s produce exactly 10 sleeps. -/
theorem c9_sleeps_on_final_attempt_witness :
    dataF always404Script urlBody = ⟨.error .missingData, 10, 10⟩ :=
  c9_sleeps_on_final_attempt always404Script urlBody "http://x/y" rfl rfl
    (fun _ _ => rfl)

/-- C3: the claim (and spec §7) says a failed image normalization returns
the typed failure (`InvalidUrl` with the offending string, or
`InvalidInput`) to the caller.  `prepare_image` indeed produces exactly
that typed error, and no HTTP request is issued — but every
image-accepting operation calls `prepare_image(..).unwrap()`, which
panics on the `Err` (modelled as `none`), so the typed error can never
reach the caller as a return value: the `InvalidUrl`/`InvalidInput`
variants of the library's own error enum are unreachable as results.  The
theorem evaluates the embedded code at failing inputs. -/
theorem c3_validation_panics (urlOk : String → Bool) (s : String)
    (target : ImageInput) (b : List Nat) (extraParams : Option Params)
    (hbad : urlOk s = false) (hb64 : base64DecodeBytes b = none) :
    prepareImage urlOk (.url s) "source_image" (extraParams.getD [])
      = .error (.invalidUrl s) ∧
    prepareImage urlOk (.bytes b) "image" (extraParams.getD [])
      = .error .invalidInput ∧
    ImagePig.faceswap urlOk (.url s) target extraParams = none ∧
    ImagePig.upscale urlOk (.bytes b) none extraParams = none ∧
    ImagePig.cutout urlOk (.bytes b) extraParams = none ∧
    ImagePig.replace urlOk (.url s) "woman" "robot" none extraParams = none ∧
    ImagePig.outpaint urlOk (.url s) "dress" none none none none none
        extraParams = none := by
  have hpu : ∀ pn ps, prepareImage urlOk (.url s) pn ps = .error (.invalidUrl s) := by
    intro pn ps
    simp [prepareImage, hbad]
  have hpb : ∀ pn ps, prepareImage urlOk (.bytes b) pn ps = .error .invalidInput := by
    intro pn ps
    simp [prepareImage, hb64]
  refine ⟨hpu _ _, hpb _ _, ?_, ?_, ?_, ?_, ?_⟩
  · simp [ImagePig.faceswap, hpu]
  · simp [ImagePig.upscale, hpb]
  · simp [ImagePig.cutout, hpb]
  · simp [ImagePig.replace, hpu]
  · simp [ImagePig.outpaint, hpu]

/-- Witness for C3 at the failing input: the string `not a url` (rejected
by `Url::parse`) and the byte sequence `[33]` (the character `!`, not
valid base64). -/
theorem c3_validation_panics_witness :
    prepareImage (fun _ => false) (.url "not a url") "source_image" []
      = .error (.invalidUrl "not a url") ∧
    prepareImage (fun _ => false) (.bytes [33]) "image" []
      = .error .invalidInput ∧
    ImagePig.faceswap (fun _ => false) (.url "not a url") (.url "x") none
      = none ∧
    ImagePig.upscale (fun _ => false) (.bytes [33]) none none = none ∧
    ImagePig.cutout (fun _ => false) (.bytes [33]) none = none ∧
    ImagePig.replace (fun _ => false) (.url "not a url") "woman" "robot"
        none none = none ∧
    ImagePig.outpaint (fun _ => false) (.url "not a url") "dress" none
        none none none none none = none :=
  c3_validation_panics (fun _ => false) "not a url" (.url "x") [33] none
    rfl rfl

/-- C6 counterexample: the Flux endpoint takes no negative-prompt
argument, so `flux("pig")` with no extras sends a payload with no
`negative_prompt` key at all. -/
theorem c6_flux_missing_negative_prompt :
    containsKey (ImagePig.flux "pig" none none) "negative_prompt" = false :=
  rfl

/-- C6 amended: the default-generation and XL payloads always contain a
`negative_prompt` key, with the empty-string value when the caller omits
the negative prompt; the Flux endpoint has no negative-prompt parameter
and its builder never inserts the key (the payload holds it exactly as
far as the caller's extras already did). -/
theorem c6_negative_prompt_presence (prompt : String)
    (negativePrompt : Option String) (proportion : Option Proportion)
    (extraParams : Option Params) :
    getParam (ImagePig.defaultCall prompt negativePrompt extraParams)
        "negative_prompt" = some (.str (negativePrompt.getD "")) ∧
    getParam (ImagePig.xl prompt negativePrompt extraParams)
        "negative_prompt" = some (.str (negativePrompt.getD "")) ∧
    getParam (ImagePig.flux prompt proportion extraParams) "negative_prompt"
      = getParam (extraParams.getD []) "negative_prompt" := by
  refine ⟨?_, ?_, ?_⟩
  · simp [ImagePig.defaultCall, getParam_insertParam]
  · simp [ImagePig.xl, getParam_insertParam]
  · simp [ImagePig.flux, getParam_insertParam]

/-! ## Shapes of the image-accepting endpoint builders -/

theorem cutout_eq (urlOk : String → Bool) (img : ImageInput) (extra : Params) :
    ImagePig.cutout urlOk img (some extra)
      = match prepareImage urlOk img "image" extra with
        | .error _ => none
        | .ok p => some p := rfl

theorem upscale_eq (urlOk : String → Bool) (img : ImageInput)
    (factor : Option UpscalingFactor) (extra : Params) :
    ImagePig.upscale urlOk img factor (some extra)
      = match prepareImage urlOk img "image" extra with
        | .error _ => none
        | .ok p =>
            some (insertParam p "upscaling_factor"
              (.num (factor.getD UpscalingFactor.two).wire)) := rfl

theorem replace_eq (urlOk : String → Bool) (img : ImageInput)
    (selectPrompt positivePrompt : String) (negativePrompt : Option String)
    (extra : Params) :
    ImagePig.replace urlOk img selectPrompt positivePrompt negativePrompt
        (some extra)
      = match prepareImage urlOk img "image" extra with
        | .error _ => none
        | .ok p =>
            some (insertParam
              (insertParam (insertParam p "select_prompt" (.str selectPrompt))
                "positive_prompt" (.str positivePrompt))
              "negative_prompt" (.str (negativePrompt.getD ""))) := rfl

theorem outpaint_eq (urlOk : String → Bool) (img : ImageInput)
    (positivePrompt : String) (negativePrompt : Option String)
    (top right bottom left : Option Nat) (extra : Params) :
    ImagePig.outpaint urlOk img positivePrompt negativePrompt top right
        bottom left (some extra)
      = match prepareImage urlOk img "image" extra with
        | .error _ => none
        | .ok p =>
            some (insertParam (insertParam (insertParam (insertParam
              (insertParam (insertParam p "positive_prompt"
                  (.str positivePrompt))
                "negative_prompt" (.str (negativePrompt.getD "")))
              "top" (.num (top.getD 0)))
              "right" (.num (right.getD 0)))
              "bottom" (.num (bottom.getD 0)))
              "left" (.num (left.getD 0))) := rfl

theorem faceswap_eq (urlOk : String → Bool) (src tgt : ImageInput)
    (extra : Params) :
    ImagePig.faceswap urlOk src tgt (some extra)
      = match prepareImage urlOk src "source_image" extra with
        | .error _ => none
        | .ok p =>
            match prepareImage urlOk tgt "target_image" p with
            | .error _ => none
            | .ok q => some q := rfl

/-- An extras map that already carries an `image_url` key. -/
def c7extras : Params := [("image_url", Json.str "http://a")]

/-- C7 counterexample: the invariant is not enforced against caller
extras.  Calling cutout with a byte-array image input (the base64 text
`aGVsbG8=` as bytes) and an extras map already containing `image_url`
produces a payload that contains both `image_url` and `image_data` for
the `image` field. -/
theorem c7_both_image_keys_counterexample :
    (ImagePig.cutout (fun _ => true)
        (.bytes [97, 71, 86, 115, 98, 71, 56, 61]) (some c7extras)).map
        (fun m => (containsKey m "image_url", containsKey m "image_data"))
      = some (true, true) := rfl

/-- C7 amended: `prepare_image` itself inserts exactly one of
`{field}_url` / `{field}_data`, chosen by the input variant; therefore
the sent payload never contains both keys for the same logical image
field provided the caller's extras map does not itself already contain
one of the two keys for that field (extras are merged verbatim and can
defeat the invariant, as the counterexample shows). -/
theorem c7_image_key_exclusive (urlOk : String → Bool)
    (img src tgt : ImageInput) (extra m : Params)
    (factor : Option UpscalingFactor) (selectPrompt positivePrompt : String)
    (negativePrompt : Option String) (top right bottom left : Option Nat) :
    (ImagePig.cutout urlOk img (some extra) = some m →
      containsKey extra "image_url" = false →
      containsKey extra "image_data" = false →
      ¬(containsKey m "image_url" = true ∧
        containsKey m "image_data" = true)) ∧
    (ImagePig.upscale urlOk img factor (some extra) = some m →
      containsKey extra "image_url" = false →
      containsKey extra "image_data" = false →
      ¬(containsKey m "image_url" = true ∧
        containsKey m "image_data" = true)) ∧
    (ImagePig.replace urlOk img selectPrompt positivePrompt negativePrompt
        (some extra) = some m →
      containsKey extra "image_url" = false →
      containsKey extra "image_data" = false →
      ¬(containsKey m "image_url" = true ∧
        containsKey m "image_data" = true)) ∧
    (ImagePig.outpaint urlOk img positivePrompt negativePrompt top right
        bottom left (some extra) = some m →
      containsKey extra "image_url" = false →
      containsKey extra "image_data" = false →
      ¬(containsKey m "image_url" = true ∧
        containsKey m "image_data" = true)) ∧
    (ImagePig.faceswap urlOk src tgt (some extra) = some m →
      containsKey extra "source_image_url" = false →
      containsKey extra "source_image_data" = false →
      containsKey extra "target_image_url" = false →
      containsKey extra "target_image_data" = false →
      ¬(containsKey m "source_image_url" = true ∧
        containsKey m "source_image_data" = true) ∧
      ¬(containsKey m "target_image_url" = true ∧
        containsKey m "target_image_data" = true)) := by
  refine ⟨?_, ?_, ?_, ?_, ?_⟩
  · intro hop hu hd
    rw [cutout_eq] at hop
    cases hp : prepareImage urlOk img "image" extra with
    | error e =>
        rw [hp] at hop
        exact Option.noConfusion hop
    | ok p =>
        rw [hp] at hop
        obtain rfl : p = m := Option.some.inj hop
        obtain ⟨v, hv, rfl⟩ := prepareImage_ok_eq urlOk img "image" extra p hp
        cases img with
        | url s =>
            rintro ⟨hmu, hmd⟩
            simp [imageKey, containsKey_insertParam, hd] at hmd
        | bytes b =>
            rintro ⟨hmu, hmd⟩
            simp [imageKey, containsKey_insertParam, hu] at hmu
  · intro hop hu hd
    rw [upscale_eq] at hop
    cases hp : prepareImage urlOk img "image" extra with
    | error e =>
        rw [hp] at hop
        exact Option.noConfusion hop
    | ok p =>
        rw [hp] at hop
        obtain rfl := Option.some.inj hop
        obtain ⟨v, hv, rfl⟩ := prepareImage_ok_eq urlOk img "image" extra p hp
        cases img with
        | url s =>
            rintro ⟨hmu, hmd⟩
            simp [imageKey, containsKey_insertParam, hd] at hmd
        | bytes b =>
            rintro ⟨hmu, hmd⟩
            simp [imageKey, containsKey_insertParam, hu] at hmu
  · intro hop hu hd
    rw [replace_eq] at hop
    cases hp : prepareImage urlOk img "image" extra with
    | error e =>
        rw [hp] at hop
        exact Option.noConfusion hop
    | ok p =>
        rw [hp] at hop
        obtain rfl := Option.some.inj hop
        obtain ⟨v, hv, rfl⟩ := prepareImage_ok_eq urlOk img "image" extra p hp
        cases img with
        | url s =>
            rintro ⟨hmu, hmd⟩
            simp [imageKey, containsKey_insertParam, hd] at hmd
        | bytes b =>
            rintro ⟨hmu, hmd⟩
            simp [imageKey, containsKey_insertParam, hu] at hmu
  · intro hop hu hd
    rw [outpaint_eq] at hop
    cases hp : prepareImage urlOk img "image" extra with
    | error e =>
        rw [hp] at hop
        exact Option.noConfusion hop
    | ok p =>
        rw [hp] at hop
        obtain rfl := Option.some.inj hop
        obtain ⟨v, hv, rfl⟩ := prepareImage_ok_eq urlOk img "image" extra p hp
        cases img with
        | url s =>
            rintro ⟨hmu, hmd⟩
            simp [imageKey, containsKey_insertParam, hd] at hmd
        | bytes b =>
            rintro ⟨hmu, hmd⟩
            simp [imageKey, containsKey_insertParam, hu] at hmu
  · intro hop hsu hsd htu htd
    rw [faceswap_eq] at hop
    cases hps : prepareImage urlOk src "source_image" extra with
    | error e =>
        rw [hps] at hop
        exact Option.noConfusion hop
    | ok p =>
        rw [hps] at hop
        have hop2 : (match prepareImage urlOk tgt "target_image" p with
            | Except.error _ => (none : Option Params)
            | Except.ok q => some q) = some m := hop
        cases hpt : prepareImage urlOk tgt "target_image" p with
        | error e =>
            rw [hpt] at hop2
            exact Option.noConfusion hop2
        | ok q =>
            rw [hpt] at hop2
            obtain rfl : q = m := Option.some.inj hop2
            obtain ⟨v, hv, rfl⟩ :=
              prepareImage_ok_eq urlOk src "source_image" extra p hps
            obtain ⟨w, hw, rfl⟩ :=
              prepareImage_ok_eq urlOk tgt "target_image" _ q hpt
            constructor
            · cases src with
              | url s =>
                  rintro ⟨hmu, hmd⟩
                  cases tgt <;>
                    simp [imageKey, containsKey_insertParam, hsd] at hmd
              | bytes b =>
                  rintro ⟨hmu, hmd⟩
                  cases tgt <;>
                    simp [imageKey, containsKey_insertParam, hsu] at hmu
            · cases tgt with
              | url s =>
                  rintro ⟨hmu, hmd⟩
                  cases src <;>
                    simp [imageKey, containsKey_insertParam, htd] at hmd
              | bytes b =>
                  rintro ⟨hmu, hmd⟩
                  cases src <;>
                    simp [imageKey, containsKey_insertParam, htu] at hmu

/-- Witness for the amended C7: cutout of a URL image with empty extras
yields a payload with `image_url` but no `image_data`. -/
theorem c7_image_key_exclusive_witness :
    ¬(containsKey [("image_url", Json.str "http://x/y")] "image_url" = true ∧
      containsKey [("image_url", Json.str "http://x/y")] "image_data" = true) :=
  (c7_image_key_exclusive (fun _ => true) (.url "http://x/y")
      (.url "http://a") (.url "http://b") []
      [("image_url", Json.str "http://x/y")] none "a" "b" none none none
      none none).1 rfl rfl rfl

theorem imageKey_ne (input : ImageInput) (paramName k : String)
    (hu : ¬paramName ++ "_url" = k) (hd : ¬paramName ++ "_data" = k) :
    ¬imageKey input paramName = k := by
  cases input with
  | url s => exact hu
  | bytes b => exact hd

theorem imageKey_src_ne_tgt (src tgt : ImageInput) :
    ¬imageKey src "source_image" = imageKey tgt "target_image" := by
  cases src <;> cases tgt <;> simp [imageKey]

/-- C8: each endpoint builder starts from the caller's extras map and then
inserts its own keys, so a colliding extras key always ends up holding the
builder's value in the sent payload, while every non-colliding extras key
is preserved verbatim.  For each endpoint the conjunct states the final
value of every builder-managed key (for image fields, the normalized
image value) and that any other key reads back exactly as in the
extras. -/
theorem c8_builder_keys_win (urlOk : String → Bool)
    (img src tgt : ImageInput) (extra m : Params) (prompt : String)
    (negativePrompt : Option String) (proportion : Option Proportion)
    (factor : Option UpscalingFactor) (selectPrompt positivePrompt : String)
    (top right bottom left : Option Nat) (k : String) :
    (getParam (ImagePig.defaultCall prompt negativePrompt (some extra))
        "positive_prompt" = some (.str prompt) ∧
     getParam (ImagePig.defaultCall prompt negativePrompt (some extra))
        "negative_prompt" = some (.str (negativePrompt.getD "")) ∧
     (k ≠ "positive_prompt" → k ≠ "negative_prompt" →
       getParam (ImagePig.defaultCall prompt negativePrompt (some extra)) k
         = getParam extra k)) ∧
    (getParam (ImagePig.xl prompt negativePrompt (some extra))
        "positive_prompt" = some (.str prompt) ∧
     getParam (ImagePig.xl prompt negativePrompt (some extra))
        "negative_prompt" = some (.str (negativePrompt.getD "")) ∧
     (k ≠ "positive_prompt" → k ≠ "negative_prompt" →
       getParam (ImagePig.xl prompt negativePrompt (some extra)) k
         = getParam extra k)) ∧
    (getParam (ImagePig.flux prompt proportion (some extra))
        "positive_prompt" = some (.str prompt) ∧
     getParam (ImagePig.flux prompt proportion (some extra))
        "proportion" = some (.str (proportion.getD Proportion.landscape).wire) ∧
     (k ≠ "positive_prompt" → k ≠ "proportion" →
       getParam (ImagePig.flux prompt proportion (some extra)) k
         = getParam extra k)) ∧
    (ImagePig.faceswap urlOk src tgt (some extra) = some m →
      getParam m (imageKey tgt "target_image") = preparedValue urlOk tgt ∧
      getParam m (imageKey src "source_image") = preparedValue urlOk src ∧
      (k ≠ imageKey src "source_image" → k ≠ imageKey tgt "target_image" →
        getParam m k = getParam extra k)) ∧
    (ImagePig.upscale urlOk img factor (some extra) = some m →
      getParam m "upscaling_factor"
        = some (.num (factor.getD UpscalingFactor.two).wire) ∧
      getParam m (imageKey img "image") = preparedValue urlOk img ∧
      (k ≠ "upscaling_factor" → k ≠ imageKey img "image" →
        getParam m k = getParam extra k)) ∧
    (ImagePig.cutout urlOk img (some extra) = some m →
      getParam m (imageKey img "image") = preparedValue urlOk img ∧
      (k ≠ imageKey img "image" → getParam m k = getParam extra k)) ∧
    (ImagePig.replace urlOk img selectPrompt positivePrompt negativePrompt
        (some extra) = some m →
      getParam m "select_prompt" = some (.str selectPrompt) ∧
      getParam m "positive_prompt" = some (.str positivePrompt) ∧
      getParam m "negative_prompt" = some (.str (negativePrompt.getD "")) ∧
      getParam m (imageKey img "image") = preparedValue urlOk img ∧
      (k ≠ "select_prompt" → k ≠ "positive_prompt" → k ≠ "negative_prompt" →
        k ≠ imageKey img "image" → getParam m k = getParam extra k)) ∧
    (ImagePig.outpaint urlOk img positivePrompt negativePrompt top right
        bottom left (some extra) = some m →
      getParam m "positive_prompt" = some (.str positivePrompt) ∧
      getParam m "negative_prompt" = some (.str (negativePrompt.getD "")) ∧
      getParam m "top" = some (.num (top.getD 0)) ∧
      getParam m "right" = some (.num (right.getD 0)) ∧
      getParam m "bottom" = some (.num (bottom.getD 0)) ∧
      getParam m "left" = some (.num (left.getD 0)) ∧
      (k ≠ "positive_prompt" → k ≠ "negative_prompt" → k ≠ "top" →
        k ≠ "right" → k ≠ "bottom" → k ≠ "left" → k ≠ imageKey img "image" →
        getParam m k = getParam extra k)) := by
  refine ⟨⟨?_, ?_, ?_⟩, ⟨?_, ?_, ?_⟩, ⟨?_, ?_, ?_⟩, ?_, ?_, ?_, ?_, ?_⟩
  · simp [ImagePig.defaultCall, getParam_insertParam]
  · simp [ImagePig.defaultCall, getParam_insertParam]
  · intro hk1 hk2
    simp [ImagePig.defaultCall, getParam_insertParam, hk1, hk2]
  · simp [ImagePig.xl, getParam_insertParam]
  · simp [ImagePig.xl, getParam_insertParam]
  · intro hk1 hk2
    simp [ImagePig.xl, getParam_insertParam, hk1, hk2]
  · simp [ImagePig.flux, getParam_insertParam]
  · simp [ImagePig.flux, getParam_insertParam]
  · intro hk1 hk2
    simp [ImagePig.flux, getParam_insertParam, hk1, hk2]
  · intro hop
    rw [faceswap_eq] at hop
    cases hps : prepareImage urlOk src "source_image" extra with
    | error e =>
        rw [hps] at hop
        exact Option.noConfusion hop
    | ok p =>
        rw [hps] at hop
        have hop2 : (match prepareImage urlOk tgt "target_image" p with
            | Except.error _ => (none : Option Params)
            | Except.ok q => some q) = some m := hop
        cases hpt : prepareImage urlOk tgt "target_image" p with
        | error e =>
            rw [hpt] at hop2
            exact Option.noConfusion hop2
        | ok q =>
            rw [hpt] at hop2
            obtain rfl : q = m := Option.some.inj hop2
            obtain ⟨v, hv, rfl⟩ :=
              prepareImage_ok_eq urlOk src "source_image" extra p hps
            obtain ⟨w, hw, rfl⟩ :=
              prepareImage_ok_eq urlOk tgt "target_image" _ q hpt
            refine ⟨?_, ?_, ?_⟩
            · rw [hw, getParam_insertParam, if_pos rfl]
            · rw [hv, getParam_insertParam,
                if_neg (imageKey_src_ne_tgt src tgt),
                getParam_insertParam, if_pos rfl]
            · intro hk1 hk2
              rw [getParam_insertParam, if_neg hk2,
                getParam_insertParam, if_neg hk1]
  · intro hop
    rw [upscale_eq] at hop
    cases hp : prepareImage urlOk img "image" extra with
    | error e =>
        rw [hp] at hop
        exact Option.noConfusion hop
    | ok p =>
        rw [hp] at hop
        obtain rfl := Option.some.inj hop
        obtain ⟨v, hv, rfl⟩ := prepareImage_ok_eq urlOk img "image" extra p hp
        refine ⟨?_, ?_, ?_⟩
        · rw [getParam_insertParam, if_pos rfl]
        · rw [hv, getParam_insertParam,
            if_neg (imageKey_ne img "image" "upscaling_factor"
              (by decide) (by decide)),
            getParam_insertParam, if_pos rfl]
        · intro hk1 hk2
          rw [getParam_insertParam, if_neg hk1,
            getParam_insertParam, if_neg hk2]
  · intro hop
    rw [cutout_eq] at hop
    cases hp : prepareImage urlOk img "image" extra with
    | error e =>
        rw [hp] at hop
        exact Option.noConfusion hop
    | ok p =>
        rw [hp] at hop
        obtain rfl := Option.some.inj hop
        obtain ⟨v, hv, rfl⟩ := prepareImage_ok_eq urlOk img "image" extra p hp
        refine ⟨?_, ?_⟩
        · rw [hv, getParam_insertParam, if_pos rfl]
        · intro hk1
          rw [getParam_insertParam, if_neg hk1]
  · intro hop
    rw [replace_eq] at hop
    cases hp : prepareImage urlOk img "image" extra with
    | error e =>
        rw [hp] at hop
        exact Option.noConfusion hop
    | ok p =>
        rw [hp] at hop
        obtain rfl := Option.some.inj hop
        obtain ⟨v, hv, rfl⟩ := prepareImage_ok_eq urlOk img "image" extra p hp
        refine ⟨?_, ?_, ?_, ?_, ?_⟩
        · simp [getParam_insertParam]
        · simp [getParam_insertParam]
        · simp [getParam_insertParam]
        · rw [hv, getParam_insertParam,
            if_neg (imageKey_ne img "image" "negative_prompt"
              (by decide) (by decide)),
            getParam_insertParam,
            if_neg (imageKey_ne img "image" "positive_prompt"
              (by decide) (by decide)),
            getParam_insertParam,
            if_neg (imageKey_ne img "image" "select_prompt"
              (by decide) (by decide)),
            getParam_insertParam, if_pos rfl]
        · intro hk1 hk2 hk3 hk4
          rw [getParam_insertParam, if_neg hk3,
            getParam_insertParam, if_neg hk2,
            getParam_insertParam, if_neg hk1,
            getParam_insertParam, if_neg hk4]
  · intro hop
    rw [outpaint_eq] at hop
    cases hp : prepareImage urlOk img "image" extra with
    | error e =>
        rw [hp] at hop
        exact Option.noConfusion hop
    | ok p =>
        rw [hp] at hop
        obtain rfl := Option.some.inj hop
        obtain ⟨v, hv, rfl⟩ := prepareImage_ok_eq urlOk img "image" extra p hp
        refine ⟨?_, ?_, ?_, ?_, ?_, ?_, ?_⟩
        · simp [getParam_insertParam]
        · simp [getParam_insertParam]
        · simp [getParam_insertParam]
        · simp [getParam_insertParam]
        · simp [getParam_insertParam]
        · simp [getParam_insertParam]
        · intro hk1 hk2 hk3 hk4 hk5 hk6 hk7
          rw [getParam_insertParam, if_neg hk6,
            getParam_insertParam, if_neg hk5,
            getParam_insertParam, if_neg hk4,
            getParam_insertParam, if_neg hk3,
            getParam_insertParam, if_neg hk2,
            getParam_insertParam, if_neg hk1,
            getParam_insertParam, if_neg hk7]

/-- Witness for C8: with extras `{"positive_prompt": "evil"}`, the default
endpoint sends the explicit prompt `pig`, and cutout of a URL image keeps
the non-colliding extras key `custom` unchanged while the image key holds
the normalized image value. -/
theorem c8_builder_keys_win_witness :
    getParam (ImagePig.defaultCall "pig" none
        (some [("positive_prompt", Json.str "evil")])) "positive_prompt"
      = some (.str "pig") ∧
    getParam [("positive_prompt", Json.str "evil"),
        ("image_url", Json.str "http://x/y")] "image_url"
      = preparedValue (fun _ => true) (.url "http://x/y") ∧
    getParam [("positive_prompt", Json.str "evil"),
        ("image_url", Json.str "http://x/y")] "custom"
      = getParam [("positive_prompt", Json.str "evil")] "custom" := by
  have T := c8_builder_keys_win (fun _ => true) (.url "http://x/y")
    (.url "http://a") (.url "http://b") [("positive_prompt", Json.str "evil")]
    [("positive_prompt", Json.str "evil"), ("image_url", Json.str "http://x/y")]
    "pig" none none none "sel" "pos" none none none none "custom"
  exact ⟨T.1.1, (T.2.2.2.2.2.1 rfl).1,
    (T.2.2.2.2.2.1 rfl).2 (by decide)⟩

/-- C10: when `prepare_image` succeeds on a parameter map it writes
exactly one key — `{param_name}_url` for a string input, `{param_name}_data`
for a byte-vector input — and the value stored under every other key is
left unchanged. -/
theorem c10_prepare_image_frame (urlOk : String → Bool) (input : ImageInput)
    (paramName : String) (params m : Params)
    (h : prepareImage urlOk input paramName params = .ok m) :
    containsKey m (imageKey input paramName) = true ∧
    (∀ k, k ≠ imageKey input paramName → getParam m k = getParam params k) ∧
    (∀ s, input = .url s → imageKey input paramName = paramName ++ "_url") ∧
    (∀ b, input = .bytes b → imageKey input paramName = paramName ++ "_data") := by
  obtain ⟨v, hv, rfl⟩ := prepareImage_ok_eq urlOk input paramName params m h
  refine ⟨?_, ?_, ?_, ?_⟩
  · simp [containsKey_insertParam]
  · intro k hk
    rw [getParam_insertParam, if_neg hk]
  · rintro s rfl
    rfl
  · rintro b rfl
    rfl

/-- Witness for C10: preparing the URL image `http://x/y` under field name
`image` into the map `{"a": 1}` adds `image_url` and leaves the entry at
`a` unchanged. -/
theorem c10_prepare_image_frame_witness :
    containsKey [("a", Json.num 1), ("image_url", Json.str "http://x/y")]
        "image_url" = true ∧
    getParam [("a", Json.num 1), ("image_url", Json.str "http://x/y")] "a"
      = getParam [("a", Json.num 1)] "a" := by
  have T := c10_prepare_image_frame (fun _ => true) (.url "http://x/y")
    "image" [("a", Json.num 1)]
    [("a", Json.num 1), ("image_url", Json.str "http://x/y")] rfl
  exact ⟨T.1, T.2.1 "a" (by decide)⟩
